import Mathlib

/-!
Shallow embedding of the event/RSVP backend (`src/main.py`, `src/schemas.py`).

Conventions of the embedding:
* The document store is explicit state: an `EventStore` / `RsvpStore` value
  holds the list of stored documents (in insertion order, as the store
  enumerates them) together with the next fresh native id.
* Native store ids (bson `ObjectId`) are modelled as `Nat`; their text form
  (`str(oid)`) is `renderId`, and the parsing constructor `ObjectId(s)`
  (which raises on malformed input) is `parseObjectId`, returning `none`
  where the real constructor raises.  The interface facts used by the code
  are preserved: rendering then parsing yields the original id, and some
  strings fail to parse.
* Handlers that can raise `HTTPException` return `Except Nat α`, the error
  being the HTTP status code.
* `database.py` (the store gateway: `db`, `create_document`) is not part of
  the sources; its insert operation is modelled from the spec, see the
  doc comments on `create_document_event` / `create_document_rsvp`.
-/

/-! ### Native id codec (models `bson.ObjectId` text form) -/

/-- Decimal digit to character, `48 = '0'`. -/
def digitToChar (d : Nat) : Char := Char.ofNat (48 + d)

/-- Character back to decimal digit; `none` on a non-digit character. -/
def charToDigit (c : Char) : Option Nat :=
  if 48 ≤ c.toNat && c.toNat ≤ 57 then some (c.toNat - 48) else none

/-- Fuel-based decimal rendering of a `Nat` (most significant digit first),
mirroring the fuel structure of core's `Nat.toDigitsCore`. -/
def idDigitsFuel : Nat → Nat → List Char
  | 0, _ => []
  | fuel + 1, n =>
    if n < 10 then [digitToChar n]
    else idDigitsFuel fuel (n / 10) ++ [digitToChar (n % 10)]

/-- Models `str(oid)`: the text form of a native store id. -/
def renderId (n : Nat) : String := ⟨idDigitsFuel (n + 1) n⟩

/-- Left-to-right accumulator parse of a digit string. -/
def parseDigitsAux : List Char → Nat → Option Nat
  | [], acc => some acc
  | c :: cs, acc =>
    match charToDigit c with
    | some d => parseDigitsAux cs (acc * 10 + d)
    | none => none

/-- Parse of a nonempty digit string; `none` on the empty list or on any
non-digit character. -/
def parseDigitList (l : List Char) : Option Nat :=
  match l with
  | [] => none
  | c :: cs => parseDigitsAux (c :: cs) 0

/-- Models the `ObjectId(event_id)` constructor applied to a path string:
`some` native id when the text parses, `none` where the real constructor
raises on malformed input. -/
def parseObjectId (s : String) : Option Nat :=
  parseDigitList s.data

/-! ### Schemas (`src/schemas.py`) and request/response models (`src/main.py`) -/

/-- `schemas.Event`: the validated event payload. -/
structure Event where
  title : String
  description : Option String
  date_iso : String
  location : String
  cover_image_url : Option String
deriving DecidableEq

/-- `main.EventOut`: the event response model, `Event` plus `id: str`. -/
structure EventOut extends Event where
  id : String
deriving DecidableEq

/-- `main.RsvpRequest`: the RSVP request body model.  NOTE: `status` is a
plain `str` in the code (its comment says "going" or "not_going" but no
constraint is declared), so every string is accepted here. -/
structure RsvpRequest where
  status : String
  user_id : String
  user_name : Option String
deriving DecidableEq

/-- An RSVP request body as received at the HTTP boundary, before pydantic
validation: each field present or absent. -/
structure RawRsvpBody where
  status : Option String
  user_id : Option String
  user_name : Option String
deriving DecidableEq

/-- Pydantic validation of `RsvpRequest`: `status` and `user_id` are required
strings, `user_name` is optional; no constraint on the value of `status`. -/
def validateRsvpRequest (b : RawRsvpBody) : Option RsvpRequest :=
  match b.status, b.user_id with
  | some st, some uid => some ⟨st, uid, b.user_name⟩
  | _, _ => none

/-- The status constraint declared by `schemas.Rsvp`
(`Literal["going", "not_going"]`). -/
def statusAllowed (st : String) : Bool :=
  st == "going" || st == "not_going"

/-- `main.RsvpOut`: the RSVP response model. -/
structure RsvpOut where
  id : String
  event_id : String
  user_id : String
  status : String
  user_name : Option String
deriving DecidableEq

/-! ### Event store and event handlers -/

/-- A document of the `event` collection: native id plus the event fields. -/
structure StoredEvent where
  oid : Nat
  title : String
  description : Option String
  date_iso : String
  location : String
  cover_image_url : Option String
deriving DecidableEq

/-- The `event` collection: documents in insertion order, next fresh id. -/
structure EventStore where
  docs : List StoredEvent
  nextId : Nat
deriving DecidableEq

/-- Modelled from the spec: `database.create_document` (the Document Store
Gateway of §4.1, whose file is not under `src/`) for the `event` collection —
"insert one document, return its generated id", the id unique and stable.
The fresh document receives the store's next native id; the text form of
that id is returned. -/
def create_document_event (s : EventStore) (e : Event) : EventStore × String :=
  (⟨s.docs ++ [⟨s.nextId, e.title, e.description, e.date_iso, e.location,
      e.cover_image_url⟩], s.nextId + 1⟩,
   renderId s.nextId)

/-- `main._doc_to_event_out`: project a stored document into the response
shape, the id as text. -/
def doc_to_event_out (d : StoredEvent) : EventOut :=
  ⟨⟨d.title, d.description, d.date_iso, d.location, d.cover_image_url⟩,
   renderId d.oid⟩

/-- `main.create_event` (`POST /api/events`): insert the validated payload,
return the generated id. -/
def create_event (s : EventStore) (e : Event) : EventStore × String :=
  create_document_event s e

/-- `main.get_event` (`GET /api/events/{event_id}`): parse the path id, fetch
one document by `_id`.  A parse failure raises and is turned into a 400; the
`HTTPException(404)` raised on a missing document is itself caught by the
bare `except Exception` clause and re-raised as a 400. -/
def get_event (s : EventStore) (event_id : String) : Except Nat EventOut :=
  match parseObjectId event_id with
  | none => .error 400
  | some oid =>
    match s.docs.find? (fun d => d.oid == oid) with
    | none => .error 400
    | some d => .ok (doc_to_event_out d)

/-- Store guarantee for the `event` collection: every stored native id was
generated earlier, hence is below the next fresh id. -/
def EventWF (s : EventStore) : Prop :=
  ∀ d ∈ s.docs, d.oid < s.nextId

/-! ### RSVP store and RSVP handlers -/

/-- The `data` mapping built by `set_rsvp` from path and body. -/
structure RsvpData where
  event_id : String
  user_id : String
  status : String
  user_name : Option String
deriving DecidableEq

/-- A document of the `rsvp` collection. -/
structure StoredRsvp where
  oid : Nat
  event_id : String
  user_id : String
  status : String
  user_name : Option String
deriving DecidableEq

/-- The `rsvp` collection: documents in insertion order, next fresh id. -/
structure RsvpStore where
  docs : List StoredRsvp
  nextId : Nat
deriving DecidableEq

/-- The filter `{"event_id": eid, "user_id": uid}`. -/
def matchesPair (d : StoredRsvp) (eid uid : String) : Bool :=
  d.event_id == eid && d.user_id == uid

/-- `find_one({"event_id": eid, "user_id": uid})`: first matching document in
the collection's natural order. -/
def findPair (s : RsvpStore) (eid uid : String) : Option StoredRsvp :=
  s.docs.find? (fun d => matchesPair d eid uid)

/-- The effect of `{"$set": data}` on one document: overwrite the four data
fields in place, keep the native id. -/
def setFields (d : StoredRsvp) (data : RsvpData) : StoredRsvp :=
  ⟨d.oid, data.event_id, data.user_id, data.status, data.user_name⟩

/-- `update_one({"_id": oid}, {"$set": data})`: update the first document
whose `_id` matches (the store keeps `_id` unique, so at most one does). -/
def updateOneById (l : List StoredRsvp) (oid : Nat) (data : RsvpData) :
    List StoredRsvp :=
  match l with
  | [] => []
  | d :: ds =>
    if d.oid == oid then setFields d data :: ds
    else d :: updateOneById ds oid data

/-- Modelled from the spec: `database.create_document` (the Document Store
Gateway of §4.1, whose file is not under `src/`) for the `rsvp` collection —
"insert one document, return its generated id", the id unique and stable. -/
def create_document_rsvp (s : RsvpStore) (data : RsvpData) :
    RsvpStore × String :=
  (⟨s.docs ++ [⟨s.nextId, data.event_id, data.user_id, data.status,
      data.user_name⟩], s.nextId + 1⟩,
   renderId s.nextId)

/-- `main.set_rsvp` (`POST /api/events/{event_id}/rsvp`): find an existing
RSVP for `(event_id, user_id)`; if found, `$set` the data on it and reuse its
id, else insert a new document; return the data with the id. -/
def set_rsvp (s : RsvpStore) (event_id : String) (body : RsvpRequest) :
    RsvpStore × RsvpOut :=
  let data : RsvpData := ⟨event_id, body.user_id, body.status, body.user_name⟩
  match findPair s event_id body.user_id with
  | some existing =>
    (⟨updateOneById s.docs existing.oid data, s.nextId⟩,
     ⟨renderId existing.oid, data.event_id, data.user_id, data.status,
      data.user_name⟩)
  | none =>
    let r := create_document_rsvp s data
    (r.1, ⟨r.2, data.event_id, data.user_id, data.status, data.user_name⟩)

/-- The RSVP endpoint including its validation boundary: the framework
validates the raw body against `RsvpRequest` (422 on failure, before the
handler runs), then runs `set_rsvp`. -/
def rsvp_endpoint (s : RsvpStore) (event_id : String) (raw : RawRsvpBody) :
    RsvpStore × Except Nat RsvpOut :=
  match validateRsvpRequest raw with
  | none => (s, .error 422)
  | some body =>
    let r := set_rsvp s event_id body
    (r.1, .ok r.2)

/-- `main.get_my_rsvp` (`GET /api/events/{event_id}/rsvp/{user_id}`): look up
by pair; the `HTTPException(404)` is re-raised unchanged (the handler catches
`HTTPException` separately). -/
def get_my_rsvp (s : RsvpStore) (event_id user_id : String) :
    Except Nat RsvpOut :=
  match findPair s event_id user_id with
  | none => .error 404
  | some d => .ok ⟨renderId d.oid, d.event_id, d.user_id, d.status, d.user_name⟩

/-- The `{going, not_going}` counts response. -/
structure CountsOut where
  going : Nat
  not_going : Nat
deriving DecidableEq

/-- `main.get_counts` (`GET /api/events/{event_id}/counts`): two independent
`count_documents` queries over the `rsvp` collection. -/
def get_counts (s : RsvpStore) (event_id : String) : CountsOut :=
  ⟨s.docs.countP (fun d => d.event_id == event_id && d.status == "going"),
   s.docs.countP (fun d => d.event_id == event_id && d.status == "not_going")⟩

/-- Number of stored RSVP documents for one `(event_id, user_id)` pair. -/
def pairCount (s : RsvpStore) (eid uid : String) : Nat :=
  s.docs.countP (fun d => matchesPair d eid uid)

/-- The §3 invariant: at most one RSVP document per `(event_id, user_id)`. -/
def UniquePairs (s : RsvpStore) : Prop :=
  ∀ eid uid, pairCount s eid uid ≤ 1

/-- Store guarantee for the `rsvp` collection: native ids are pairwise
distinct and below the next fresh id. -/
def RsvpWF (s : RsvpStore) : Prop :=
  (∀ d ∈ s.docs, d.oid < s.nextId) ∧
  s.docs.Pairwise (fun a b => a.oid ≠ b.oid)

/-- The §8.4 scenario: on one event, `going` submitted for 3 distinct users
and `not_going` for 2 distinct users, starting from an empty collection. -/
def rsvpScenario : RsvpStore :=
  let s0 : RsvpStore := ⟨[], 0⟩
  let s1 := (set_rsvp s0 "e1" ⟨"going", "u1", none⟩).1
  let s2 := (set_rsvp s1 "e1" ⟨"going", "u2", none⟩).1
  let s3 := (set_rsvp s2 "e1" ⟨"going", "u3", none⟩).1
  let s4 := (set_rsvp s3 "e1" ⟨"not_going", "u4", none⟩).1
  (set_rsvp s4 "e1" ⟨"not_going", "u5", none⟩).1

/-! ### Diagnostics endpoint (`GET /test`) -/

/-- The store handle as the diagnostics endpoint sees it: an optional
database name attribute, and a collection-name enumeration that either
yields the names or fails with an error message. -/
structure DbHandle where
  name : Option String
  collection_names : Except String (List String)

/-- Whether the two named environment variables are set. -/
structure EnvVars where
  database_url_set : Bool
  database_name_set : Bool

/-- The diagnostics response payload. -/
structure TestResponse where
  backend : String
  database : String
  database_url : Option String
  database_name : Option String
  connection_status : String
  collections : List String
deriving DecidableEq

/-- `main.test_database` (`GET /test`).  `db` is the handle from
`database.py`, `none` when no store handle exists.  Every failure mode is
rendered into the payload; the final two assignments overwrite
`database_url` / `database_name` from the environment variables. -/
def test_database (db : Option DbHandle) (env : EnvVars) : TestResponse :=
  let base : TestResponse :=
    ⟨"✅ Running", "❌ Not Available", none, none, "Not Connected", []⟩
  let mid : TestResponse :=
    match db with
    | some h =>
      let r1 : TestResponse :=
        { base with
          database := "✅ Available"
          database_url := some "✅ Configured"
          database_name := some (match h.name with
            | some nm => nm
            | none => "✅ Connected")
          connection_status := "Connected" }
      match h.collection_names with
      | .ok cols =>
        { r1 with
          collections := cols.take 10
          database := "✅ Connected & Working" }
      | .error e =>
        { r1 with database := "⚠️  Connected but Error: " ++ e.take 50 }
    | none => { base with database := "⚠️  Available but not initialized" }
  { mid with
    database_url := some (if env.database_url_set then "✅ Set" else "❌ Not Set")
    database_name := some (if env.database_name_set then "✅ Set" else "❌ Not Set") }

/-! ### Helper lemmas: the id codec -/

theorem charToDigit_digitToChar (d : Nat) (hd : d < 10) :
    charToDigit (digitToChar d) = some d := by
  interval_cases d <;> decide

theorem parseDigitsAux_append (l1 l2 : List Char) (acc : Nat) :
    parseDigitsAux (l1 ++ l2) acc =
      (parseDigitsAux l1 acc).bind (fun m => parseDigitsAux l2 m) := by
  induction l1 generalizing acc with
  | nil => simp [parseDigitsAux]
  | cons c cs ih =>
    simp only [List.cons_append, parseDigitsAux]
    cases hc : charToDigit c with
    | none => simp [hc]
    | some d => simp [hc, ih]

theorem idDigitsFuel_ne_nil (fuel n : Nat) (h : 0 < fuel) :
    idDigitsFuel fuel n ≠ [] := by
  cases fuel with
  | zero => omega
  | succ f =>
    by_cases h10 : n < 10 <;> simp [idDigitsFuel, h10]

theorem parseDigitsAux_idDigitsFuel (fuel : Nat) :
    ∀ n acc : Nat, n < fuel →
      ∃ k, parseDigitsAux (idDigitsFuel fuel n) acc = some (acc * 10 ^ k + n) := by
  induction fuel with
  | zero => intro n acc h; omega
  | succ f ih =>
    intro n acc h
    by_cases h10 : n < 10
    · refine ⟨1, ?_⟩
      simp [idDigitsFuel, h10, parseDigitsAux, charToDigit_digitToChar n h10]
    · obtain ⟨k, hk⟩ := ih (n / 10) acc (by omega)
      refine ⟨k + 1, ?_⟩
      have hdig : charToDigit (digitToChar (n % 10)) = some (n % 10) :=
        charToDigit_digitToChar (n % 10) (by omega)
      simp only [idDigitsFuel, if_neg h10]
      rw [parseDigitsAux_append, hk]
      simp only [Option.bind, parseDigitsAux, hdig]
      rw [pow_succ, ← mul_assoc, Option.some_inj]
      set A := acc * 10 ^ k with hA
      omega

theorem parse_renderId (n : Nat) : parseObjectId (renderId n) = some n := by
  obtain ⟨k, hk⟩ := parseDigitsAux_idDigitsFuel (n + 1) n 0 (by omega)
  have hne : idDigitsFuel (n + 1) n ≠ [] := idDigitsFuel_ne_nil (n + 1) n (by omega)
  show parseDigitList (idDigitsFuel (n + 1) n) = some n
  cases hl : idDigitsFuel (n + 1) n with
  | nil => exact absurd hl hne
  | cons c cs =>
    rw [hl] at hk
    simp [parseDigitList, hk]

/-! ### Claim theorems -/

/-- Claim C1 (code_bug evidence): the RSVP endpoint's request model accepts
`status` strings outside the allowed set, so the request with status
`"maybe"` is NOT rejected at the validation boundary: the handler runs and a
document with status `"maybe"` is written to the `rsvp` collection — even
though the `schemas.Rsvp` constraint (`statusAllowed`) rejects it. -/
theorem rsvp_invalid_status_written :
    statusAllowed "maybe" = false ∧
    (rsvp_endpoint ⟨[], 0⟩ "e1" ⟨some "maybe", some "u1", none⟩).2 =
      Except.ok ⟨renderId 0, "e1", "u1", "maybe", none⟩ ∧
    (rsvp_endpoint ⟨[], 0⟩ "e1" ⟨some "maybe", some "u1", none⟩).1.docs =
      [⟨0, "e1", "u1", "maybe", none⟩] :=
  ⟨rfl, rfl, rfl⟩

/-- Claim C9: in both branches of `set_rsvp` the response fields echo the
path `event_id` and the request body exactly; no stored value leaks into the
`event_id`, `user_id`, `status`, `user_name` fields of the response. -/
theorem set_rsvp_echoes_request (s : RsvpStore) (eid : String)
    (body : RsvpRequest) :
    ((set_rsvp s eid body).2).event_id = eid ∧
    ((set_rsvp s eid body).2).user_id = body.user_id ∧
    ((set_rsvp s eid body).2).status = body.status ∧
    ((set_rsvp s eid body).2).user_name = body.user_name := by
  cases h : findPair s eid body.user_id <;>
    simp [set_rsvp, h, create_document_rsvp]

/-- Claim C10: for every connection state, the diagnostics payload's
`database_url` / `database_name` fields report only whether the two
environment variables are set — the final assignments overwrite anything
set earlier in the handler. -/
theorem test_database_env_flags (db : Option DbHandle) (env : EnvVars) :
    (test_database db env).database_url =
      some (if env.database_url_set then "✅ Set" else "❌ Not Set") ∧
    (test_database db env).database_name =
      some (if env.database_name_set then "✅ Set" else "❌ Not Set") :=
  ⟨rfl, rfl⟩

/-- Claim C4: `get_counts` returns the number of `rsvp` documents with the
given `event_id` and status `"going"` resp. `"not_going"`; in the §8.4
scenario (3 distinct `going` users, 2 distinct `not_going` users on one
event) it returns `{going := 3, not_going := 2}`. -/
theorem get_counts_matches_filters :
    (∀ (s : RsvpStore) (eid : String),
      get_counts s eid =
        ⟨s.docs.countP (fun d => d.event_id == eid && d.status == "going"),
         s.docs.countP (fun d => d.event_id == eid && d.status == "not_going")⟩) ∧
    get_counts rsvpScenario "e1" = ⟨3, 2⟩ :=
  ⟨fun s eid => rfl, by decide⟩

/-- Claim C5: creating an event and fetching the returned id round-trips —
the fetched payload's five fields equal the input payload, and the id is the
returned text id.  The hypothesis is the store guarantee that every already
stored id was generated earlier (ids unique and stable, spec §4.1). -/
theorem create_then_get_event (s : EventStore) (e : Event) (hwf : EventWF s) :
    get_event (create_event s e).1 (create_event s e).2 =
      .ok ⟨⟨e.title, e.description, e.date_iso, e.location, e.cover_image_url⟩,
           (create_event s e).2⟩ := by
  have hparse := parse_renderId s.nextId
  have hnone : s.docs.find? (fun d => d.oid == s.nextId) = none := by
    rw [List.find?_eq_none]
    intro d hd
    have hlt := hwf d hd
    simp only [beq_iff_eq]
    omega
  simp only [create_event, create_document_event, get_event, hparse]
  simp [List.find?_append, hnone, doc_to_event_out]

/-- Witness for C5 at a concrete store and payload. -/
theorem create_then_get_event_witness :
    EventWF ⟨[], 0⟩ ∧
    get_event (create_event ⟨[], 0⟩ ⟨"t", none, "2025-01-01", "loc", none⟩).1
        (create_event ⟨[], 0⟩ ⟨"t", none, "2025-01-01", "loc", none⟩).2 =
      .ok ⟨⟨"t", none, "2025-01-01", "loc", none⟩,
           (create_event ⟨[], 0⟩ ⟨"t", none, "2025-01-01", "loc", none⟩).2⟩ :=
  ⟨fun d hd => absurd hd (List.not_mem_nil d),
   create_then_get_event ⟨[], 0⟩ ⟨"t", none, "2025-01-01", "loc", none⟩
     (fun d hd => absurd hd (List.not_mem_nil d))⟩

/-- Claim C6: `get_event` answers a 4xx status (in fact 400, no crash, no
5xx) both when the path id fails to parse and when it parses but matches no
stored document; otherwise it projects the matched document into the
response shape with the id as text. -/
theorem get_event_error_handling (s : EventStore) (pid : String) :
    (parseObjectId pid = none →
      ∃ c, get_event s pid = .error c ∧ 400 ≤ c ∧ c < 500) ∧
    (∀ oid, parseObjectId pid = some oid →
      s.docs.find? (fun d => d.oid == oid) = none →
      ∃ c, get_event s pid = .error c ∧ 400 ≤ c ∧ c < 500) ∧
    (∀ oid d, parseObjectId pid = some oid →
      s.docs.find? (fun d => d.oid == oid) = some d →
      get_event s pid =
        .ok ⟨⟨d.title, d.description, d.date_iso, d.location,
              d.cover_image_url⟩, renderId d.oid⟩) := by
  refine ⟨fun h => ⟨400, ?_, by omega, by omega⟩,
          fun oid h1 h2 => ⟨400, ?_, by omega, by omega⟩,
          fun oid d h1 h2 => ?_⟩ <;>
    simp [get_event, doc_to_event_out, *]

/-- Witness for C6: an unparsable path id on the empty store. -/
theorem get_event_error_handling_witness :
    parseObjectId "nope" = none ∧
    ∃ c, get_event ⟨[], 0⟩ "nope" = .error c ∧ 400 ≤ c ∧ c < 500 :=
  ⟨by decide, (get_event_error_handling ⟨[], 0⟩ "nope").1 (by decide)⟩

/-- Claim C7: when no RSVP document exists for the pair, `get_my_rsvp`
returns 404; when one is found, it is projected to the response shape with
the id as text. -/
theorem get_my_rsvp_spec (s : RsvpStore) (eid uid : String) :
    ((∀ d ∈ s.docs, matchesPair d eid uid = false) →
      get_my_rsvp s eid uid = .error 404) ∧
    (∀ d, findPair s eid uid = some d →
      get_my_rsvp s eid uid =
        .ok ⟨renderId d.oid, d.event_id, d.user_id, d.status, d.user_name⟩) := by
  constructor
  · intro h
    have hnone : findPair s eid uid = none := by
      rw [findPair, List.find?_eq_none]
      intro d hd
      simp [h d hd]
    simp [get_my_rsvp, hnone]
  · intro d h
    simp [get_my_rsvp, h]

/-- Witness for C7: a never-submitted pair on the empty store yields 404. -/
theorem get_my_rsvp_spec_witness :
    (∀ d ∈ ([] : List StoredRsvp), matchesPair d "e1" "u1" = false) ∧
    get_my_rsvp ⟨[], 0⟩ "e1" "u1" = .error 404 :=
  ⟨fun d hd => absurd hd (List.not_mem_nil d),
   (get_my_rsvp_spec ⟨[], 0⟩ "e1" "u1").1
     (fun d hd => absurd hd (List.not_mem_nil d))⟩

/-- Claim C8: the diagnostics endpoint is a total function of the handle and
environment state (the embedding returns a plain payload, nothing is
raised); its collections list never exceeds 10 entries; a failing collection
enumeration and a missing store handle are each rendered as a descriptive
string in the `database` field of the payload. -/
theorem test_database_never_fails (db : Option DbHandle) (env : EnvVars) :
    (test_database db env).collections.length ≤ 10 ∧
    (∀ h, db = some h → ∀ e, h.collection_names = .error e →
      (test_database db env).database = "⚠️  Connected but Error: " ++ e.take 50 ∧
      (test_database db env).collections = []) ∧
    (db = none →
      (test_database db env).database = "⚠️  Available but not initialized") := by
  refine ⟨?_, ?_, ?_⟩
  · cases db with
    | none => simp [test_database]
    | some h =>
      cases hc : h.collection_names with
      | ok cols =>
        simp [test_database, hc, List.length_take]
      | error e => simp [test_database, hc]
  · rintro h rfl e hc
    simp [test_database, hc]
  · rintro rfl
    simp [test_database]

/-- Witness for C8: a handle whose collection enumeration fails. -/
theorem test_database_never_fails_witness :
    ((⟨none, Except.error "boom"⟩ : DbHandle).collection_names =
      Except.error "boom") ∧
    (test_database (some ⟨none, Except.error "boom"⟩) ⟨true, false⟩).database =
      "⚠️  Connected but Error: " ++ "boom".take 50 :=
  ⟨rfl,
   ((test_database_never_fails (some ⟨none, Except.error "boom"⟩)
       ⟨true, false⟩).2.1 ⟨none, Except.error "boom"⟩ rfl "boom" rfl).1⟩

/-! ### Helper lemmas: the RSVP upsert -/

theorem find?_split {α : Type} (p : α → Bool) :
    ∀ (l : List α) (a : α), l.find? p = some a →
      ∃ l1 l2, l = l1 ++ a :: l2 ∧ p a = true ∧ ∀ x ∈ l1, p x = false := by
  intro l
  induction l with
  | nil => intro a h; simp at h
  | cons b bs ih =>
    intro a h
    cases hpb : p b with
    | true =>
      rw [List.find?_cons_of_pos bs hpb] at h
      cases h
      exact ⟨[], bs, rfl, hpb, by simp⟩
    | false =>
      rw [List.find?_cons_of_neg bs (by simp [hpb])] at h
      obtain ⟨l1, l2, hsplit, hpa, hl1⟩ := ih a h
      refine ⟨b :: l1, l2, by rw [hsplit, List.cons_append], hpa, ?_⟩
      intro x hx
      rcases List.mem_cons.mp hx with hxb | hxl
      · rw [hxb]; exact hpb
      · exact hl1 x hxl

theorem updateOneById_split (l1 l2 : List StoredRsvp) (e : StoredRsvp)
    (data : RsvpData) (h : ∀ x ∈ l1, x.oid ≠ e.oid) :
    updateOneById (l1 ++ e :: l2) e.oid data = l1 ++ setFields e data :: l2 := by
  induction l1 with
  | nil => simp [updateOneById]
  | cons a l ih =>
    have ha : (a.oid == e.oid) = false := by
      simp only [beq_eq_false_iff_ne]
      exact h a (by simp)
    simp only [List.cons_append, updateOneById, ha, Bool.false_eq_true,
      if_false, List.append_eq]
    rw [ih (fun x hx => h x (by simp [hx]))]

theorem set_rsvp_found (s : RsvpStore) (eid : String) (body : RsvpRequest)
    (e : StoredRsvp) (he : findPair s eid body.user_id = some e) :
    set_rsvp s eid body =
      (⟨updateOneById s.docs e.oid
          ⟨eid, body.user_id, body.status, body.user_name⟩, s.nextId⟩,
       ⟨renderId e.oid, eid, body.user_id, body.status, body.user_name⟩) := by
  simp [set_rsvp, he]

theorem set_rsvp_not_found (s : RsvpStore) (eid : String) (body : RsvpRequest)
    (he : findPair s eid body.user_id = none) :
    set_rsvp s eid body =
      (⟨s.docs ++ [⟨s.nextId, eid, body.user_id, body.status, body.user_name⟩],
        s.nextId + 1⟩,
       ⟨renderId s.nextId, eid, body.user_id, body.status, body.user_name⟩) := by
  simp [set_rsvp, he, create_document_rsvp]

theorem found_update_split (s : RsvpStore) (eid uid : String) (e : StoredRsvp)
    (data : RsvpData) (hwf : RsvpWF s) (he : findPair s eid uid = some e) :
    ∃ l1 l2, s.docs = l1 ++ e :: l2 ∧ matchesPair e eid uid = true ∧
      (∀ x ∈ l1, matchesPair x eid uid = false) ∧
      updateOneById s.docs e.oid data = l1 ++ setFields e data :: l2 := by
  obtain ⟨l1, l2, hsplit, hpe, hl1⟩ := find?_split _ s.docs e he
  have hne : ∀ x ∈ l1, x.oid ≠ e.oid := by
    have hp := hwf.2
    rw [hsplit] at hp
    have hrel := (List.pairwise_append.mp hp).2.2
    intro x hx
    exact hrel x hx e (by simp)
  exact ⟨l1, l2, hsplit, hpe, hl1,
    by rw [hsplit]; exact updateOneById_split l1 l2 e data hne⟩

theorem countP_matches_zero (l : List StoredRsvp) (eid uid : String)
    (h : ∀ d ∈ l, matchesPair d eid uid = false) :
    l.countP (fun d => matchesPair d eid uid) = 0 :=
  List.countP_eq_zero.mpr (fun a ha => by simp [h a ha])

/-- Claim C3: `set_rsvp` looks up the pair; if found it overwrites the four
data fields of that document in place (same position, same native id) and
returns the existing id as text; if not found it appends one new document
with the freshly generated id and returns that id as text; in both cases the
response is `{id, event_id, user_id, status, user_name}` built from the
request.  The hypothesis is the §4.1 store guarantee (ids unique). -/
theorem set_rsvp_steps (s : RsvpStore) (eid : String) (body : RsvpRequest)
    (hwf : RsvpWF s) :
    (∀ e, findPair s eid body.user_id = some e →
      (∃ l1 l2, s.docs = l1 ++ e :: l2 ∧
        (set_rsvp s eid body).1.docs =
          l1 ++ (⟨e.oid, eid, body.user_id, body.status, body.user_name⟩ :
            StoredRsvp) :: l2) ∧
      (set_rsvp s eid body).1.nextId = s.nextId ∧
      (set_rsvp s eid body).2 =
        ⟨renderId e.oid, eid, body.user_id, body.status, body.user_name⟩) ∧
    (findPair s eid body.user_id = none →
      (set_rsvp s eid body).1.docs =
        s.docs ++ [⟨s.nextId, eid, body.user_id, body.status, body.user_name⟩] ∧
      (set_rsvp s eid body).1.nextId = s.nextId + 1 ∧
      (set_rsvp s eid body).2 =
        ⟨renderId s.nextId, eid, body.user_id, body.status, body.user_name⟩) := by
  constructor
  · intro e he
    obtain ⟨l1, l2, hsplit, hpe, hl1, hupd⟩ :=
      found_update_split s eid body.user_id e
        ⟨eid, body.user_id, body.status, body.user_name⟩ hwf he
    rw [set_rsvp_found s eid body e he]
    exact ⟨⟨l1, l2, hsplit, hupd⟩, rfl, rfl⟩
  · intro he
    rw [set_rsvp_not_found s eid body he]
    exact ⟨rfl, rfl, rfl⟩

/-- Witness for C3: the found branch on a one-document store. -/
theorem set_rsvp_steps_witness :
    RsvpWF ⟨[⟨0, "e1", "u1", "going", none⟩], 1⟩ ∧
    (set_rsvp ⟨[⟨0, "e1", "u1", "going", none⟩], 1⟩ "e1"
        ⟨"not_going", "u1", some "Ann"⟩).2 =
      ⟨renderId 0, "e1", "u1", "not_going", some "Ann"⟩ :=
  ⟨⟨by simp, by simp⟩,
   ((set_rsvp_steps ⟨[⟨0, "e1", "u1", "going", none⟩], 1⟩ "e1"
       ⟨"not_going", "u1", some "Ann"⟩ ⟨by simp, by simp⟩).1
     ⟨0, "e1", "u1", "going", none⟩ rfl).2.2⟩

/-- Claim C2: in sequential execution a `set_rsvp` call preserves the
at-most-one-document-per-pair invariant; the submitted pair has exactly one
document afterwards; a new pair adds exactly one document; a resubmission
for an existing pair keeps the document count and leaves the pair's only
document with the same native id and the new status.  Hypotheses are the
§4.1 store guarantee (ids unique) and the invariant before the call. -/
theorem set_rsvp_preserves_unique_pairs (s : RsvpStore) (eid : String)
    (body : RsvpRequest) (hwf : RsvpWF s) (hinv : UniquePairs s) :
    UniquePairs (set_rsvp s eid body).1 ∧
    pairCount (set_rsvp s eid body).1 eid body.user_id = 1 ∧
    (pairCount s eid body.user_id = 0 →
      (set_rsvp s eid body).1.docs.length = s.docs.length + 1) ∧
    (∀ e, findPair s eid body.user_id = some e →
      (set_rsvp s eid body).1.docs.length = s.docs.length ∧
      ∀ d ∈ (set_rsvp s eid body).1.docs,
        matchesPair d eid body.user_id = true →
        d.oid = e.oid ∧ d.status = body.status) := by
  cases hfind : findPair s eid body.user_id with
  | none =>
    have h0 : ∀ d ∈ s.docs, matchesPair d eid body.user_id = false := by
      have hn := hfind
      rw [findPair, List.find?_eq_none] at hn
      intro d hd
      simpa using hn d hd
    have hz : s.docs.countP (fun d => matchesPair d eid body.user_id) = 0 :=
      countP_matches_zero s.docs eid body.user_id h0
    rw [set_rsvp_not_found s eid body hfind]
    refine ⟨?_, ?_, fun _ => by simp, fun e he => by cases he⟩
    · intro eid' uid'
      simp only [pairCount, List.countP_append, List.countP_cons,
        List.countP_nil]
      by_cases hm : matchesPair
          ⟨s.nextId, eid, body.user_id, body.status, body.user_name⟩
          eid' uid' = true
      · have hpair : eid = eid' ∧ body.user_id = uid' := by
          simpa [matchesPair] using hm
        obtain ⟨hq1, hq2⟩ := hpair
        subst hq1
        subst hq2
        simp [hm, hz]
      · have horig := hinv eid' uid'
        simp only [pairCount] at horig
        simp [hm]
        omega
    · simp only [pairCount, List.countP_append, List.countP_cons,
        List.countP_nil]
      have hms : matchesPair
          ⟨s.nextId, eid, body.user_id, body.status, body.user_name⟩
          eid body.user_id = true := by
        simp [matchesPair]
      simp [hms, hz]
  | some e =>
    obtain ⟨l1, l2, hsplit, hpe, hl1, hupd⟩ :=
      found_update_split s eid body.user_id e
        ⟨eid, body.user_id, body.status, body.user_name⟩ hwf hfind
    have h1 : l1.countP (fun d => matchesPair d eid body.user_id) = 0 :=
      countP_matches_zero l1 eid body.user_id hl1
    have h2 : l2.countP (fun d => matchesPair d eid body.user_id) = 0 := by
      have horig := hinv eid body.user_id
      rw [pairCount, hsplit] at horig
      simp [List.countP_append, List.countP_cons, hpe] at horig
      omega
    rw [set_rsvp_found s eid body e hfind, hupd]
    refine ⟨?_, ?_, fun habs => ?_, fun e' he' => ?_⟩
    · intro eid' uid'
      have horig := hinv eid' uid'
      rw [pairCount, hsplit] at horig
      simp only [List.countP_append, List.countP_cons] at horig
      simp only [pairCount, List.countP_append, List.countP_cons]
      by_cases hm : matchesPair
          (setFields e ⟨eid, body.user_id, body.status, body.user_name⟩)
          eid' uid' = true
      · have hpair : eid = eid' ∧ body.user_id = uid' := by
          simpa [matchesPair, setFields] using hm
        obtain ⟨hq1, hq2⟩ := hpair
        subst hq1
        subst hq2
        simp only [hpe, if_true] at horig
        simp [hm]
        omega
      · by_cases hme : matchesPair e eid' uid' = true <;>
          simp [hme] at horig <;> simp [hm] <;> omega
    · simp only [pairCount, List.countP_append, List.countP_cons,
        List.countP_nil]
      have hms : matchesPair
          (setFields e ⟨eid, body.user_id, body.status, body.user_name⟩)
          eid body.user_id = true := by
        simp [matchesPair, setFields]
      simp [hms, h1, h2]
    · rw [pairCount, hsplit] at habs
      simp [List.countP_append, List.countP_cons, hpe] at habs
    · cases he'
      refine ⟨by simp [hsplit], ?_⟩
      intro d hd hmd
      rcases List.mem_append.mp hd with hdl1 | hdc
      · exact absurd hmd (by simp [hl1 d hdl1])
      · rcases List.mem_cons.mp hdc with hde | hdl2
        · subst hde
          exact ⟨rfl, rfl⟩
        · have hz2 := List.countP_eq_zero.mp h2 d hdl2
          exact absurd hmd (by simpa using hz2)

/-- Witness for C2: a first submission on the empty store yields exactly one
document for the pair. -/
theorem set_rsvp_preserves_unique_pairs_witness :
    RsvpWF ⟨[], 0⟩ ∧ UniquePairs ⟨[], 0⟩ ∧
    pairCount (set_rsvp ⟨[], 0⟩ "e1" ⟨"going", "u1", none⟩).1 "e1" "u1" = 1 :=
  ⟨⟨fun d hd => absurd hd (List.not_mem_nil d), List.Pairwise.nil⟩,
   fun eid uid => by simp [pairCount],
   (set_rsvp_preserves_unique_pairs ⟨[], 0⟩ "e1" ⟨"going", "u1", none⟩
     ⟨fun d hd => absurd hd (List.not_mem_nil d), List.Pairwise.nil⟩
     (fun eid uid => by simp [pairCount])).2.1⟩
